import Mathlib

/-!
Verification of the dynamic SQL construction layer of the jobly repository:
the partial-update SET-clause builder (`sqlForPartialUpdate`, exercised by
`src/helpers/sql.test.js`) and the job filter WHERE-clause builder embedded in
`Job.findAll` (`src/models/job.js`), together with the query composition done
by `Job.update` and the duplicate check done by `Job.create`.

JavaScript values flowing through the builders are modelled by `JVal`;
field sets and column mappings (plain JS objects) are modelled as association
lists in their iteration order; errors thrown by the code are modelled with
`Except` over `JoblyError`.
-/

/-- A JavaScript value as it appears in update data and query parameters:
a string, a number (integers suffice for every value the claims touch),
a boolean, or null. -/
inductive JVal where
  | str (s : String)
  | num (n : Int)
  | boolean (b : Bool)
  | null
deriving DecidableEq

/-- The error classes of expressError.js that the modelled code throws. -/
inductive JoblyError where
  | badRequest (msg : String)
  | notFound (msg : String)
deriving DecidableEq

/-- JavaScript Array.prototype.join with a separator: empty list gives the
empty string, otherwise the elements with `sep` between consecutive ones. -/
def joinSep (sep : String) : List String → String
  | [] => ""
  | [x] => x
  | x :: y :: xs => x ++ sep ++ joinSep sep (y :: xs)

/-- Number of occurrences of the character `c` in the string `s`. -/
def countChar (c : Char) (s : String) : Nat :=
  s.data.count c

/-- Modelled from the spec: the file src/helpers/sql.js is absent from the
repository snapshot (only its test src/helpers/sql.test.js is present), so the
column resolution of the partial-update builder follows spec section 4.1:
resolve the storage column as the mapping entry for `name` when present,
else `name` itself (identity fallback). -/
def resolveCol (jsToSql : List (String × String)) (name : String) : String :=
  (jsToSql.lookup name).getD name

/-- Modelled from the spec: the file src/helpers/sql.js is absent from the
repository snapshot, so the emission of the SET pieces follows spec section
4.1: the entry at 0-based position `idx` of the field set emits
`"col"=$(idx+1)` with the column resolved through `resolveCol`. -/
def setPiecesFrom (jsToSql : List (String × String)) (idx : Nat) :
    List (String × α) → List String
  | [] => []
  | p :: rest =>
      ("\"" ++ resolveCol jsToSql p.1 ++ "\"=$" ++ Nat.repr (idx + 1))
        :: setPiecesFrom jsToSql (idx + 1) rest

/-- Modelled from the spec: the file src/helpers/sql.js is absent from the
repository snapshot (only its test is present). Following spec section 4.1
and the test file: an empty field set fails with a BadRequestError; otherwise
the pieces are emitted in the field set's iteration order, joined with a
comma and a space, and the values are passed through untouched in the same
order. -/
def sqlForPartialUpdate (dataToUpdate : List (String × α))
    (jsToSql : List (String × String)) : Except JoblyError (String × List α) :=
  if dataToUpdate.isEmpty then
    .error (.badRequest "No data")
  else
    .ok (joinSep ", " (setPiecesFrom jsToSql 0 dataToUpdate),
         dataToUpdate.map Prod.snd)

example :
    sqlForPartialUpdate
      [("firstName", JVal.str "Aliya"), ("age", JVal.num 32)]
      [("firstName", "first_name")] =
    .ok ("\"first_name\"=$1, \"age\"=$2", [JVal.str "Aliya", JVal.num 32]) := by
  rfl

/-- The filter record accepted by the findAll method of src/models/job.js:
every field optional. A title of some "" together with some t models the
JavaScript string values on which the truthiness test of the code acts. -/
structure JobFilter where
  title : Option String := none
  minSalary : Option Int := none
  hasEquity : Option Bool := none
deriving DecidableEq

/-- The truthiness test the code applies to the destructured title filter:
in JavaScript, undefined and the empty string are falsy and every other
string is truthy. -/
def titleTruthy (f : JobFilter) : Bool :=
  match f.title with
  | some t => decide (t ≠ "")
  | none => false

/-- The WHERE-clause builder inlined in Job.findAll (src/models/job.js,
lines 50 to 74): the clause list and the parameter list accumulated by the
three filter checks, in the fixed order title, minSalary, hasEquity, each
placeholder numbered with the length of the parameter list right after its
value is pushed. -/
def jobFindAllWhere (f : JobFilter) : List String × List JVal :=
  let queryValues : List JVal := []
  let whereClauses : List String := []
  let step1 : List String × List JVal :=
    match f.title with
    | some t =>
        if t ≠ "" then
          (whereClauses ++ ["title ILIKE $" ++ Nat.repr (queryValues.length + 1)],
           queryValues ++ [JVal.str ("%" ++ t ++ "%")])
        else (whereClauses, queryValues)
    | none => (whereClauses, queryValues)
  let step2 : List String × List JVal :=
    match f.minSalary with
    | some m =>
        (step1.1 ++ ["salary >= $" ++ Nat.repr (step1.2.length + 1)],
         step1.2 ++ [JVal.num m])
    | none => step1
  if f.hasEquity = some true then
    (step2.1 ++ ["equity > 0"], step2.2)
  else step2

/-- The fixed SELECT text of Job.findAll, whitespace normalized from the
multi-line template literal of the source. -/
def jobsSelectBase : String :=
  "SELECT title, salary, equity, company_handle AS \"companyHandle\" FROM jobs"

/-- The full statement Job.findAll executes: the SELECT text, then a WHERE
clause joining the filter fragments with AND only when at least one fragment
exists, then the ORDER BY clause, paired with the parameter list. -/
def jobFindAllQuery (f : JobFilter) : String × List JVal :=
  let wc := jobFindAllWhere f
  let query :=
    if wc.1.length > 0 then
      jobsSelectBase ++ " WHERE " ++ joinSep " AND " wc.1
    else jobsSelectBase
  (query ++ " ORDER BY title", wc.2)

/-- The statement construction of Job.update (src/models/job.js, lines 118
to 131): build the SET clause through sqlForPartialUpdate with the mapping
from companyHandle to company_handle, append a WHERE placeholder indexed one
past the SET parameters, and execute with the SET values followed by the
title. Whitespace of the template literal is normalized. An empty data
object propagates the BadRequestError of the builder. -/
def jobUpdateStatement (title : String) (data : List (String × JVal)) :
    Except JoblyError (String × List JVal) :=
  match sqlForPartialUpdate data [("companyHandle", "company_handle")] with
  | .error e => .error e
  | .ok (setCols, values) =>
      let titleVarIdx := "$" ++ Nat.repr (values.length + 1)
      .ok ("UPDATE jobs SET " ++ setCols ++ " WHERE title = " ++ titleVarIdx ++
             " RETURNING title, salary, equity, company_handle AS \"companyHandle\"",
           values ++ [JVal.str title])

/-- A row of the jobs table as Job.create reads and writes it. -/
structure JobRow where
  title : String
  salary : Option Int
  equity : Option String
  companyHandle : String
deriving DecidableEq

/-- The duplicate pre-query of Job.create: the first row whose title and
company_handle both match, as rows[0] of the SELECT. -/
def duplicateCheck (jobs : List JobRow) (title companyHandle : String) :
    Option JobRow :=
  jobs.find? (fun j => j.title == title && j.companyHandle == companyHandle)

/-- Job.create (src/models/job.js, lines 18 to 39) over a jobs table
modelled as a row list: when the duplicate pre-query finds a row, throw
BadRequestError and leave the table as it was; otherwise insert the new row
and return it. The pair is the thrown-or-returned result and the table
after the call. -/
def jobCreate (jobs : List JobRow) (data : JobRow) :
    Except JoblyError JobRow × List JobRow :=
  match duplicateCheck jobs data.title data.companyHandle with
  | some _ =>
      (.error (.badRequest
          ("Duplicate job: " ++ data.title ++ " at " ++ data.companyHandle)),
       jobs)
  | none => (.ok data, jobs ++ [data])

example :
    jobFindAllWhere { title := some "en", minSalary := some 2 } =
      (["title ILIKE $1", "salary >= $2"], [JVal.str "%en%", JVal.num 2]) := by
  rfl

example :
    (jobFindAllQuery { title := some "en", minSalary := some 2 }).1 =
      jobsSelectBase ++ " WHERE title ILIKE $1 AND salary >= $2 ORDER BY title" := by
  rfl

lemma digitChar_isDigit : ∀ m < 10, (Nat.digitChar m).isDigit := by
  decide

lemma toDigitsCore_isDigit :
    ∀ (fuel n : Nat) (ds : List Char), (∀ c ∈ ds, c.isDigit) →
      ∀ c ∈ Nat.toDigitsCore 10 fuel n ds, c.isDigit := by
  intro fuel
  induction fuel with
  | zero =>
      intro n ds h c hc
      rw [Nat.toDigitsCore] at hc
      exact h c hc
  | succ fuel ih =>
      intro n ds h c hc
      rw [Nat.toDigitsCore] at hc
      by_cases h10 : n / 10 = 0
      · simp only [h10, if_pos] at hc
        rcases List.mem_cons.mp hc with rfl | hmem
        · exact digitChar_isDigit _ (Nat.mod_lt _ (by omega))
        · exact h c hmem
      · simp only [h10, if_neg, not_false_iff] at hc
        refine ih (n / 10) _ ?_ c hc
        intro d hd
        rcases List.mem_cons.mp hd with rfl | hmem
        · exact digitChar_isDigit _ (Nat.mod_lt _ (by omega))
        · exact h d hmem

lemma repr_isDigit (n : Nat) : ∀ c ∈ (Nat.repr n).data, c.isDigit := by
  intro c hc
  exact toDigitsCore_isDigit (n + 1) n [] (by simp) c hc

lemma countChar_repr (n : Nat) : countChar '$' (Nat.repr n) = 0 := by
  unfold countChar
  rw [List.count_eq_zero]
  intro hmem
  have h := repr_isDigit n '$' hmem
  simp [Char.isDigit] at h

lemma countChar_append (c : Char) (s t : String) :
    countChar c (s ++ t) = countChar c s + countChar c t := by
  cases s with
  | mk a =>
      cases t with
      | mk b =>
          show List.count c (a ++ b) = List.count c a + List.count c b
          exact List.count_append ..

lemma countChar_joinSep (c : Char) (sep : String) (h : countChar c sep = 0) :
    ∀ l : List String,
      countChar c (joinSep sep l) = (l.map (countChar c)).sum := by
  intro l
  induction l with
  | nil => simp [joinSep, countChar]
  | cons x xs ih =>
      cases xs with
      | nil => simp [joinSep]
      | cons y ys =>
          rw [joinSep, countChar_append, countChar_append, ih]
          simp [h]

lemma setPiecesFrom_length (M : List (String × String)) :
    ∀ (F : List (String × α)) (idx : Nat),
      (setPiecesFrom M idx F).length = F.length := by
  intro F
  induction F with
  | nil => intro idx; rfl
  | cons p rest ih => intro idx; simp [setPiecesFrom, ih]

lemma setPiecesFrom_getD (M : List (String × String)) :
    ∀ (F : List (String × α)) (idx i : Nat) (hi : i < F.length),
      (setPiecesFrom M idx F).getD i "" =
        "\"" ++ resolveCol M (F.get ⟨i, hi⟩).1 ++ "\"=$" ++
          Nat.repr (idx + i + 1) := by
  intro F
  induction F with
  | nil => intro idx i hi; simp at hi
  | cons p rest ih =>
      intro idx i hi
      cases i with
      | zero => simp [setPiecesFrom]
      | succ i =>
          have hrec := ih (idx + 1) i (by simpa using Nat.lt_of_succ_lt_succ hi)
          simp only [setPiecesFrom, List.getD_cons_succ, List.get]
          rw [hrec]
          congr 2
          omega

lemma countChar_piece (col : String) (h : countChar '$' col = 0) (k : Nat) :
    countChar '$' ("\"" ++ col ++ "\"=$" ++ Nat.repr k) = 1 := by
  rw [countChar_append, countChar_append, countChar_append, h, countChar_repr]
  decide

lemma setPiecesFrom_countSum (M : List (String × String)) :
    ∀ (F : List (String × α)) (idx : Nat),
      (∀ p ∈ F, countChar '$' (resolveCol M p.1) = 0) →
      ((setPiecesFrom M idx F).map (countChar '$')).sum = F.length := by
  intro F
  induction F with
  | nil => intro idx _; rfl
  | cons p rest ih =>
      intro idx h
      simp only [setPiecesFrom, List.map_cons, List.sum_cons, List.length_cons]
      rw [countChar_piece _ (h p (by simp)),
          ih (idx + 1) (fun q hq => h q (by simp [hq]))]
      omega

/-- The spec's description of the job filter composition, written from the
spec's words for comparison with the code: each present key contributes
exactly one predicate fragment in the fixed key order title, minSalary,
hasEquity, with placeholders numbered in that evaluation order. -/
def specJobFilterClauses (f : JobFilter) : List String :=
  let titlePart : List String :=
    if titleTruthy f then ["title ILIKE $1"] else []
  let salaryPart : List String :=
    if f.minSalary.isSome then
      ["salary >= $" ++ Nat.repr (titlePart.length + 1)]
    else []
  let equityPart : List String :=
    if f.hasEquity = some true then ["equity > 0"] else []
  titlePart ++ salaryPart ++ equityPart

/-- The spec's description of the job filter parameters: one parameter per
present key that takes one, in the same fixed key order, the substring key
wrapped as a contains pattern. -/
def specJobFilterParams (f : JobFilter) : List JVal :=
  (match f.title with
   | some t => if t ≠ "" then [JVal.str ("%" ++ t ++ "%")] else []
   | none => []) ++
  (match f.minSalary with
   | some m => [JVal.num m]
   | none => [])

lemma jobFindAllWhere_eq_spec (f : JobFilter) :
    jobFindAllWhere f = (specJobFilterClauses f, specJobFilterParams f) := by
  rcases f with ⟨t, m, e⟩
  rcases t with _ | t <;> rcases m with _ | m <;>
    simp only [jobFindAllWhere, specJobFilterClauses, specJobFilterParams,
      titleTruthy] <;>
    split_ifs <;> simp_all <;> rfl

lemma setCols_placeholderCount (M : List (String × String))
    (F : List (String × α))
    (h : ∀ p ∈ F, countChar '$' (resolveCol M p.1) = 0) :
    countChar '$' (joinSep ", " (setPiecesFrom M 0 F)) = F.length := by
  rw [countChar_joinSep '$' ", " (by decide), setPiecesFrom_countSum M F 0 h]

lemma sqlForPartialUpdate_ok (F : List (String × α))
    (M : List (String × String)) (hF : F ≠ []) :
    sqlForPartialUpdate F M =
      .ok (joinSep ", " (setPiecesFrom M 0 F), F.map Prod.snd) := by
  unfold sqlForPartialUpdate
  rw [if_neg]
  simpa [List.isEmpty_iff] using hF

/-- C1: for every non-empty field set and every column mapping, the
partial-update builder succeeds with the i-th emitted piece (0-based i)
being the quoted resolved column followed by the placeholder numbered i+1,
pieces joined by a comma and a space, the parameter list being exactly the
field values in iteration order, and (when the resolved columns contain no
dollar sign of their own) the placeholder count of the fragment equal to
the field count; concretely, the firstName/age example of sql.test.js
produces the documented fragment and values. -/
theorem sqlForPartialUpdate_fragment_spec (F : List (String × JVal))
    (M : List (String × String)) (hF : F ≠ [])
    (hM : ∀ p ∈ F, countChar '$' (resolveCol M p.1) = 0) :
    (∃ setCols values,
      sqlForPartialUpdate F M = .ok (setCols, values) ∧
      setCols = joinSep ", " (setPiecesFrom M 0 F) ∧
      (setPiecesFrom M 0 F).length = F.length ∧
      (∀ i, ∀ hi : i < F.length,
        (setPiecesFrom M 0 F).getD i "" =
          "\"" ++ resolveCol M (F.get ⟨i, hi⟩).1 ++ "\"=$" ++
            Nat.repr (i + 1)) ∧
      values = F.map Prod.snd ∧
      values.length = F.length ∧
      countChar '$' setCols = F.length) ∧
    sqlForPartialUpdate
        [("firstName", JVal.str "Aliya"), ("age", JVal.num 32)]
        [("firstName", "first_name")] =
      .ok ("\"first_name\"=$1, \"age\"=$2",
           [JVal.str "Aliya", JVal.num 32]) := by
  refine ⟨⟨_, _, sqlForPartialUpdate_ok F M hF, rfl,
    setPiecesFrom_length M F 0, ?_, rfl, by simp,
    setCols_placeholderCount M F hM⟩, rfl⟩
  intro i hi
  have h := setPiecesFrom_getD M F 0 i hi
  simpa using h

/-- Closed instance of C1 at the firstName/age field set of sql.test.js. -/
theorem sqlForPartialUpdate_fragment_spec_witness :
    (∃ setCols values,
      sqlForPartialUpdate
          [("firstName", JVal.str "Aliya"), ("age", JVal.num 32)]
          [("firstName", "first_name")] = .ok (setCols, values) ∧
      setCols = joinSep ", "
        (setPiecesFrom [("firstName", "first_name")] 0
          [("firstName", JVal.str "Aliya"), ("age", JVal.num 32)]) ∧
      (setPiecesFrom [("firstName", "first_name")] 0
          [("firstName", JVal.str "Aliya"), ("age", JVal.num 32)]).length =
        [("firstName", JVal.str "Aliya"), ("age", JVal.num 32)].length ∧
      (∀ i, ∀ hi : i <
          [("firstName", JVal.str "Aliya"), ("age", JVal.num 32)].length,
        (setPiecesFrom [("firstName", "first_name")] 0
            [("firstName", JVal.str "Aliya"), ("age", JVal.num 32)]).getD i "" =
          "\"" ++ resolveCol [("firstName", "first_name")]
              ([("firstName", JVal.str "Aliya"),
                ("age", JVal.num 32)].get ⟨i, hi⟩).1 ++ "\"=$" ++
            Nat.repr (i + 1)) ∧
      values = [("firstName", JVal.str "Aliya"),
                ("age", JVal.num 32)].map Prod.snd ∧
      values.length =
        [("firstName", JVal.str "Aliya"), ("age", JVal.num 32)].length ∧
      countChar '$' setCols =
        [("firstName", JVal.str "Aliya"), ("age", JVal.num 32)].length) ∧
    sqlForPartialUpdate
        [("firstName", JVal.str "Aliya"), ("age", JVal.num 32)]
        [("firstName", "first_name")] =
      .ok ("\"first_name\"=$1, \"age\"=$2",
           [JVal.str "Aliya", JVal.num 32]) :=
  sqlForPartialUpdate_fragment_spec
    [("firstName", JVal.str "Aliya"), ("age", JVal.num 32)]
    [("firstName", "first_name")] (by decide) (by decide)

/-- C2: with an empty field set the partial-update builder fails with a
BadRequestError whatever the mapping is, and with a non-empty field set it
always succeeds, the parameter list being exactly the field values passed
through untouched (the statement is polymorphic in the value type, so no
coercion of values is possible). -/
theorem sqlForPartialUpdate_failure_modes {α : Type} :
    (∀ M : List (String × String),
      sqlForPartialUpdate ([] : List (String × α)) M =
        .error (.badRequest "No data")) ∧
    (∀ (F : List (String × α)) (M : List (String × String)), F ≠ [] →
      ∃ setCols,
        sqlForPartialUpdate F M = .ok (setCols, F.map Prod.snd)) := by
  constructor
  · intro M; rfl
  · intro F M hF
    exact ⟨_, sqlForPartialUpdate_ok F M hF⟩

/-- Closed instance of C2: the empty field set fails against the
sql.test.js mapping, and the non-empty salary/equity update of job.test.js
succeeds with its values untouched. -/
theorem sqlForPartialUpdate_failure_modes_witness :
    (sqlForPartialUpdate ([] : List (String × JVal))
        [("firstName", "first_name")] = .error (.badRequest "No data")) ∧
    (∃ setCols,
      sqlForPartialUpdate [("salary", JVal.num 10), ("equity", JVal.str "0.5")]
          [("companyHandle", "company_handle")] =
        .ok (setCols, [JVal.num 10, JVal.str "0.5"])) :=
  ⟨sqlForPartialUpdate_failure_modes.1 [("firstName", "first_name")],
   sqlForPartialUpdate_failure_modes.2
     [("salary", JVal.num 10), ("equity", JVal.str "0.5")]
     [("companyHandle", "company_handle")] (by decide)⟩

/-- C3: column resolution uses the field's own name when the mapping is
empty or has no entry for the field, and the mapped storage column when an
entry exists; with the empty mapping the whole builder emits every quoted
column verbatim from the field name, as in the city/country example of
sql.test.js. -/
theorem resolveCol_identity_fallback :
    (∀ n : String, resolveCol [] n = n) ∧
    (∀ (M : List (String × String)) (n : String),
      M.lookup n = none → resolveCol M n = n) ∧
    (∀ (M : List (String × String)) (n c : String),
      M.lookup n = some c → resolveCol M n = c) ∧
    (∀ F : List (String × JVal), F ≠ [] →
      ∃ setCols,
        sqlForPartialUpdate F ([] : List (String × String)) =
          .ok (setCols, F.map Prod.snd) ∧
        setCols = joinSep ", " (setPiecesFrom [] 0 F) ∧
        ∀ i, ∀ hi : i < F.length,
          (setPiecesFrom ([] : List (String × String)) 0 F).getD i "" =
            "\"" ++ (F.get ⟨i, hi⟩).1 ++ "\"=$" ++ Nat.repr (i + 1)) ∧
    sqlForPartialUpdate
        [("city", JVal.str "New York"), ("country", JVal.str "USA")]
        ([] : List (String × String)) =
      .ok ("\"city\"=$1, \"country\"=$2",
           [JVal.str "New York", JVal.str "USA"]) := by
  refine ⟨fun n => rfl, ?_, ?_, ?_, rfl⟩
  · intro M n h; simp [resolveCol, h]
  · intro M n c h; simp [resolveCol, h]
  · intro F hF
    refine ⟨_, sqlForPartialUpdate_ok F [] hF, rfl, ?_⟩
    intro i hi
    have h := setPiecesFrom_getD ([] : List (String × String)) F 0 i hi
    simpa [resolveCol] using h

/-- Closed instance of C3 at the city/country field set of sql.test.js. -/
theorem resolveCol_identity_fallback_witness :
    ∃ setCols,
      sqlForPartialUpdate
          [("city", JVal.str "New York"), ("country", JVal.str "USA")]
          ([] : List (String × String)) =
        .ok (setCols,
          [("city", JVal.str "New York"),
           ("country", JVal.str "USA")].map Prod.snd) ∧
      setCols = joinSep ", "
        (setPiecesFrom [] 0
          [("city", JVal.str "New York"), ("country", JVal.str "USA")]) ∧
      ∀ i, ∀ hi : i <
          [("city", JVal.str "New York"), ("country", JVal.str "USA")].length,
        (setPiecesFrom ([] : List (String × String)) 0
            [("city", JVal.str "New York"),
             ("country", JVal.str "USA")]).getD i "" =
          "\"" ++ ([("city", JVal.str "New York"),
                    ("country", JVal.str "USA")].get ⟨i, hi⟩).1 ++ "\"=$" ++
            Nat.repr (i + 1) :=
  resolveCol_identity_fallback.2.2.2.1
    [("city", JVal.str "New York"), ("country", JVal.str "USA")] (by decide)

lemma equity_clause_not_mem (f : JobFilter) (h : f.hasEquity ≠ some true) :
    "equity > 0" ∉ (jobFindAllWhere f).1 := by
  rcases f with ⟨t, m, e⟩
  rw [jobFindAllWhere_eq_spec]
  simp only [specJobFilterClauses]
  rw [if_neg h]
  rcases t with _ | t <;> rcases m with _ | m <;> split_ifs <;> decide

lemma jobFindAllWhere_placeholderCount (f : JobFilter) :
    countChar '$' (joinSep " AND " (jobFindAllWhere f).1) =
      (jobFindAllWhere f).2.length := by
  rcases f with ⟨t, m, e⟩
  rw [jobFindAllWhere_eq_spec]
  rcases t with _ | t <;> rcases m with _ | m <;> rcases e with _ | b <;>
    try cases b
  all_goals simp only [specJobFilterClauses, specJobFilterParams, titleTruthy]
  all_goals try by_cases ht : t = ""
  all_goals simp_all
  all_goals decide

/-- C4: the job filter record with title en and minSalary 2 produces the
case-insensitive contains predicate and the salary minimum predicate, in
that order, joined with AND, with parameters the wrapped pattern and the
numeric minimum. -/
theorem jobFindAll_title_minSalary_example :
    jobFindAllWhere { title := some "en", minSalary := some 2 } =
      (["title ILIKE $1", "salary >= $2"],
       [JVal.str "%en%", JVal.num 2]) ∧
    joinSep " AND " ["title ILIKE $1", "salary >= $2"] =
      "title ILIKE $1 AND salary >= $2" ∧
    jobFindAllQuery { title := some "en", minSalary := some 2 } =
      (jobsSelectBase ++ " WHERE title ILIKE $1 AND salary >= $2 ORDER BY title",
       [JVal.str "%en%", JVal.num 2]) :=
  ⟨rfl, rfl, rfl⟩

/-- C5: a hasEquity value of false or an absent hasEquity emits no equity
predicate, and the whole output of the filter builder and of the query
composition is the one of the same record with hasEquity removed. -/
theorem jobFindAll_hasEquity_strictly_true (f : JobFilter)
    (h : f.hasEquity = some false ∨ f.hasEquity = none) :
    jobFindAllWhere f = jobFindAllWhere { f with hasEquity := none } ∧
    jobFindAllQuery f = jobFindAllQuery { f with hasEquity := none } ∧
    "equity > 0" ∉ (jobFindAllWhere f).1 := by
  have hne : f.hasEquity ≠ some true := by
    rcases h with h | h <;> simp [h]
  have hwhere :
      jobFindAllWhere f = jobFindAllWhere { f with hasEquity := none } := by
    rcases f with ⟨t, m, e⟩
    have hne2 : e ≠ some true := hne
    rw [jobFindAllWhere_eq_spec, jobFindAllWhere_eq_spec]
    simp [specJobFilterClauses, specJobFilterParams, titleTruthy, hne2]
  refine ⟨hwhere, ?_, equity_clause_not_mem f hne⟩
  unfold jobFindAllQuery
  rw [hwhere]

/-- Closed instance of C5 at the record with title en, minSalary 2 and
hasEquity false. -/
theorem jobFindAll_hasEquity_strictly_true_witness :
    jobFindAllWhere
        { title := some "en", minSalary := some 2, hasEquity := some false } =
      jobFindAllWhere { title := some "en", minSalary := some 2 } ∧
    jobFindAllQuery
        { title := some "en", minSalary := some 2, hasEquity := some false } =
      jobFindAllQuery { title := some "en", minSalary := some 2 } ∧
    "equity > 0" ∉
      (jobFindAllWhere
        { title := some "en", minSalary := some 2,
          hasEquity := some false }).1 :=
  jobFindAll_hasEquity_strictly_true
    { title := some "en", minSalary := some 2, hasEquity := some false }
    (Or.inl rfl)

/-- C6: the filter builder's output coincides with the spec's composition:
one predicate fragment per contributing key in the fixed key-check order
title, minSalary, hasEquity, one parameter per key that takes one,
placeholders numbered in that evaluation order, and the caller joins the
fragments with AND after the WHERE keyword whenever at least one fragment
exists. -/
theorem jobFindAll_composition (f : JobFilter)
    (h : (jobFindAllWhere f).1.length > 0) :
    jobFindAllWhere f = (specJobFilterClauses f, specJobFilterParams f) ∧
    (jobFindAllWhere f).1.length =
      ((if titleTruthy f then 1 else 0) +
        (if f.minSalary.isSome then 1 else 0)) +
      (if f.hasEquity = some true then 1 else 0) ∧
    (jobFindAllWhere f).2.length =
      (if titleTruthy f then 1 else 0) +
        (if f.minSalary.isSome then 1 else 0) ∧
    (jobFindAllQuery f).1 =
      jobsSelectBase ++ " WHERE " ++
        joinSep " AND " (jobFindAllWhere f).1 ++ " ORDER BY title" := by
  refine ⟨jobFindAllWhere_eq_spec f, ?_, ?_, ?_⟩
  · rw [jobFindAllWhere_eq_spec]
    simp only [specJobFilterClauses]
    split_ifs <;> simp
  · rw [jobFindAllWhere_eq_spec]
    rcases f with ⟨t, m, e⟩
    simp only [specJobFilterParams, titleTruthy]
    rcases t with _ | t <;> rcases m with _ | m <;> split_ifs <;> simp_all
  · simp only [jobFindAllQuery]
    rw [if_pos h]

/-- Closed instance of C6 at the record activating all three filters. -/
theorem jobFindAll_composition_witness :
    jobFindAllWhere
        { title := some "en", minSalary := some 2, hasEquity := some true } =
      (specJobFilterClauses
        { title := some "en", minSalary := some 2, hasEquity := some true },
       specJobFilterParams
        { title := some "en", minSalary := some 2, hasEquity := some true }) ∧
    (jobFindAllWhere
        { title := some "en", minSalary := some 2,
          hasEquity := some true }).1.length =
      ((if titleTruthy
            { title := some "en", minSalary := some 2,
              hasEquity := some true } then 1 else 0) +
        (if (Option.isSome (some (2 : Int))) then 1 else 0)) +
      (if (some true : Option Bool) = some true then 1 else 0) ∧
    (jobFindAllWhere
        { title := some "en", minSalary := some 2,
          hasEquity := some true }).2.length =
      (if titleTruthy
            { title := some "en", minSalary := some 2,
              hasEquity := some true } then 1 else 0) +
        (if (Option.isSome (some (2 : Int))) then 1 else 0) ∧
    (jobFindAllQuery
        { title := some "en", minSalary := some 2,
          hasEquity := some true }).1 =
      jobsSelectBase ++ " WHERE " ++
        joinSep " AND "
          (jobFindAllWhere
            { title := some "en", minSalary := some 2,
              hasEquity := some true }).1 ++ " ORDER BY title" :=
  jobFindAll_composition
    { title := some "en", minSalary := some 2, hasEquity := some true }
    (by decide)

/-- C7: with no recognized key present the filter builder returns the empty
clause list and the empty parameter list, and the executed statement
contains no WHERE clause at all. -/
theorem jobFindAll_noFilters :
    jobFindAllWhere {} = ([], []) ∧
    jobFindAllQuery {} = (jobsSelectBase ++ " ORDER BY title", []) :=
  ⟨rfl, rfl⟩

/-- C8: every fragment of either builder has as many placeholders as
parameters, and Job.update continues the numbering one past the SET
parameters: its statement carries the WHERE placeholder at index
len(fields)+1 and executes with the field values followed by the title. -/
theorem parameterizedFragment_invariant :
    (∀ (F : List (String × JVal)) (M : List (String × String)), F ≠ [] →
      (∀ p ∈ F, countChar '$' (resolveCol M p.1) = 0) →
      ∃ setCols values,
        sqlForPartialUpdate F M = .ok (setCols, values) ∧
        countChar '$' setCols = values.length) ∧
    (∀ f : JobFilter,
      countChar '$' (joinSep " AND " (jobFindAllWhere f).1) =
        (jobFindAllWhere f).2.length) ∧
    (∀ (title : String) (data : List (String × JVal)), data ≠ [] →
      ∃ setCols values,
        sqlForPartialUpdate data [("companyHandle", "company_handle")] =
          .ok (setCols, values) ∧
        values.length = data.length ∧
        jobUpdateStatement title data =
          .ok ("UPDATE jobs SET " ++ setCols ++ " WHERE title = " ++
                ("$" ++ Nat.repr (data.length + 1)) ++
                " RETURNING title, salary, equity, company_handle AS \"companyHandle\"",
               values ++ [JVal.str title])) := by
  refine ⟨?_, jobFindAllWhere_placeholderCount, ?_⟩
  · intro F M hF hM
    refine ⟨_, _, sqlForPartialUpdate_ok F M hF, ?_⟩
    rw [setCols_placeholderCount M F hM, List.length_map]
  · intro title data hd
    have hok := sqlForPartialUpdate_ok data [("companyHandle", "company_handle")] hd
    refine ⟨_, _, hok, by simp, ?_⟩
    unfold jobUpdateStatement
    rw [hok]
    simp only [List.length_map]

/-- Closed instance of C8: the Aliya field set, the fully active job
filter, and the salary/equity update of job.test.js against title j1. -/
theorem parameterizedFragment_invariant_witness :
    (∃ setCols values,
      sqlForPartialUpdate
          [("firstName", JVal.str "Aliya"), ("age", JVal.num 32)]
          [("firstName", "first_name")] = .ok (setCols, values) ∧
      countChar '$' setCols = values.length) ∧
    (countChar '$'
        (joinSep " AND "
          (jobFindAllWhere
            { title := some "en", minSalary := some 2,
              hasEquity := some true }).1) =
      (jobFindAllWhere
        { title := some "en", minSalary := some 2,
          hasEquity := some true }).2.length) ∧
    (∃ setCols values,
      sqlForPartialUpdate [("salary", JVal.num 10), ("equity", JVal.str "0.5")]
          [("companyHandle", "company_handle")] = .ok (setCols, values) ∧
      values.length =
        [("salary", JVal.num 10), ("equity", JVal.str "0.5")].length ∧
      jobUpdateStatement "j1"
          [("salary", JVal.num 10), ("equity", JVal.str "0.5")] =
        .ok ("UPDATE jobs SET " ++ setCols ++ " WHERE title = " ++
              ("$" ++ Nat.repr
                ([("salary", JVal.num 10),
                  ("equity", JVal.str "0.5")].length + 1)) ++
              " RETURNING title, salary, equity, company_handle AS \"companyHandle\"",
             values ++ [JVal.str "j1"])) :=
  ⟨parameterizedFragment_invariant.1
      [("firstName", JVal.str "Aliya"), ("age", JVal.num 32)]
      [("firstName", "first_name")] (by decide) (by decide),
   parameterizedFragment_invariant.2.1
      { title := some "en", minSalary := some 2, hasEquity := some true },
   parameterizedFragment_invariant.2.2 "j1"
      [("salary", JVal.num 10), ("equity", JVal.str "0.5")] (by decide)⟩

/-- C9: both builders are deterministic functions of their inputs: two
calls on equal inputs give equal fragments and equal parameter lists. -/
theorem builders_deterministic :
    (∀ (F G : List (String × JVal)) (M N : List (String × String)),
      F = G → M = N → sqlForPartialUpdate F M = sqlForPartialUpdate G N) ∧
    (∀ f g : JobFilter, f = g →
      jobFindAllWhere f = jobFindAllWhere g ∧
      jobFindAllQuery f = jobFindAllQuery g) := by
  constructor
  · intro F G M N hF hM
    rw [hF, hM]
  · intro f g h
    rw [h]
    exact ⟨rfl, rfl⟩

/-- Closed instance of C9 at the Aliya field set and the en/2 filter. -/
theorem builders_deterministic_witness :
    sqlForPartialUpdate
        [("firstName", JVal.str "Aliya"), ("age", JVal.num 32)]
        [("firstName", "first_name")] =
      sqlForPartialUpdate
        [("firstName", JVal.str "Aliya"), ("age", JVal.num 32)]
        [("firstName", "first_name")] ∧
    jobFindAllWhere { title := some "en", minSalary := some 2 } =
        jobFindAllWhere { title := some "en", minSalary := some 2 } ∧
      jobFindAllQuery { title := some "en", minSalary := some 2 } =
        jobFindAllQuery { title := some "en", minSalary := some 2 } :=
  ⟨builders_deterministic.1
      [("firstName", JVal.str "Aliya"), ("age", JVal.num 32)]
      [("firstName", JVal.str "Aliya"), ("age", JVal.num 32)]
      [("firstName", "first_name")] [("firstName", "first_name")] rfl rfl,
   builders_deterministic.2
      { title := some "en", minSalary := some 2 }
      { title := some "en", minSalary := some 2 } rfl⟩

/-- C10: Job.create throws BadRequestError and leaves the jobs table
unchanged exactly when a row with the same title and companyHandle already
exists, and otherwise inserts the new row and returns it; the duplicate is
detected by the explicit pre-query, so the error is the builder-level
BadRequestError, not a storage error. -/
theorem jobCreate_duplicate_guard (jobs : List JobRow) (data : JobRow) :
    ((∃ j ∈ jobs,
        j.title = data.title ∧ j.companyHandle = data.companyHandle) →
      jobCreate jobs data =
        (.error (.badRequest
            ("Duplicate job: " ++ data.title ++ " at " ++ data.companyHandle)),
         jobs)) ∧
    ((∀ j ∈ jobs,
        ¬(j.title = data.title ∧ j.companyHandle = data.companyHandle)) →
      jobCreate jobs data = (.ok data, jobs ++ [data])) := by
  constructor
  · rintro ⟨j, hj, h1, h2⟩
    have hsome : (duplicateCheck jobs data.title data.companyHandle).isSome := by
      unfold duplicateCheck
      rw [List.find?_isSome]
      exact ⟨j, hj, by simp [h1, h2]⟩
    obtain ⟨r, hr⟩ := Option.isSome_iff_exists.mp hsome
    unfold jobCreate
    rw [hr]
  · intro hnone
    have hn : duplicateCheck jobs data.title data.companyHandle = none := by
      unfold duplicateCheck
      rw [List.find?_eq_none]
      intro j hj
      simp only [Bool.and_eq_true, beq_iff_eq, not_and]
      intro h1 h2
      exact hnone j hj ⟨h1, h2⟩
    unfold jobCreate
    rw [hn]

/-- Closed instance of C10 at the c1 job of job.test.js: creating the same
job twice errors on the second call without changing the table, while a
fresh job is appended. -/
theorem jobCreate_duplicate_guard_witness :
    (jobCreate [⟨"new", some 1, some "0.0", "c1"⟩]
        ⟨"new", some 1, some "0.0", "c1"⟩ =
      (.error (.badRequest "Duplicate job: new at c1"),
       [⟨"new", some 1, some "0.0", "c1"⟩])) ∧
    (jobCreate [⟨"new", some 1, some "0.0", "c1"⟩]
        ⟨"j2", some 2, some "0.0", "c2"⟩ =
      (.ok ⟨"j2", some 2, some "0.0", "c2"⟩,
       [⟨"new", some 1, some "0.0", "c1"⟩] ++
         [⟨"j2", some 2, some "0.0", "c2"⟩])) :=
  ⟨(jobCreate_duplicate_guard [⟨"new", some 1, some "0.0", "c1"⟩]
      ⟨"new", some 1, some "0.0", "c1"⟩).1
      ⟨⟨"new", some 1, some "0.0", "c1"⟩, by decide, rfl, rfl⟩,
   (jobCreate_duplicate_guard [⟨"new", some 1, some "0.0", "c1"⟩]
      ⟨"j2", some 2, some "0.0", "c2"⟩).2 (by decide)⟩
